import Mathlib

/-!
Shallow embedding of the booking lifecycle and availability engine of the
Rentify backend (src/backend/routes/bookings.js, src/backend/routes/notifications.js,
src/backend/models/Booking.js, src/backend/models/Listing.js).

Dates are modelled as integers (a Mongo `Date` compares by its timestamp),
identities as naturals.  The Mongo document store is modelled as a record of
lists; each Express route handler becomes a pure function from the store and
the authenticated requester to a response together with the updated store.
-/

namespace Rentify

/-- User role, from the User model (`role ∈ {user, host, admin}`). -/
inductive Role where
  | user
  | host
  | admin
deriving DecidableEq, Repr

/-- Booking status enumeration, from `bookingSchema.status.enum`. -/
inductive BookingStatus where
  | pending
  | confirmed
  | cancelled
  | completed
  | refunded
deriving DecidableEq, Repr

/-- Notification type enumeration, from the Notification model. -/
inductive NotifType where
  | booking
  | confirmation
  | cancellation
  | system
  | cancelRequest
deriving DecidableEq, Repr

/-- A stored user row: identity and role. -/
structure User where
  id : Nat
  role : Role
  firstName : String
deriving DecidableEq, Repr

/-- An image entry of the Listing model (`images: [{url, isPrimary}]`). -/
structure Image where
  url : String
  isPrimary : Bool
deriving DecidableEq, Repr

/-- A stored listing row (the fields the booking routes and the listing
save hook read). -/
structure Listing where
  id : Nat
  host : Nat
  title : String
  status : String      -- 'active' | 'inactive' | 'pending'
  maxGuests : Nat
  images : List Image
deriving DecidableEq, Repr

/-- A stored booking row (the fields the booking routes read or write). -/
structure Booking where
  id : Nat
  listing : Nat
  host : Nat
  guest : Option Nat
  guestName : String
  guestEmail : String
  checkIn : Int
  checkOut : Int
  guests : Nat
  totalPrice : Int
  status : BookingStatus
  paymentStatus : String
deriving DecidableEq, Repr

/-- A stored notification row, from the Notification model
(`recipient` required, `sender` optional, `isRead` default false). -/
structure Notification where
  recipient : Nat
  sender : Option Nat
  message : String
  ntype : NotifType
  isRead : Bool
deriving DecidableEq, Repr

/-- The document store. -/
structure St where
  users : List User
  listings : List Listing
  bookings : List Booking
  notifications : List Notification
deriving DecidableEq, Repr

/-- The authenticated requester: `req.user` as set by the auth middleware
(`userId` and the DB user's `role`). -/
structure Requester where
  userId : Nat
  role : Role
deriving DecidableEq, Repr

/-- An HTTP JSON response envelope `{success, message}` with its status code. -/
structure Resp where
  status : Nat
  success : Bool
  message : String
deriving DecidableEq, Repr

def findUser (st : St) (uid : Nat) : Option User :=
  st.users.find? (fun u => u.id = uid)

def findListing (st : St) (lid : Nat) : Option Listing :=
  st.listings.find? (fun l => l.id = lid)

def findBooking (st : St) (bid : Nat) : Option Booking :=
  st.bookings.find? (fun b => b.id = bid)

/-- The `status: { $in: ['pending', 'confirmed'] }` filter of the conflict
queries. -/
def isActiveStatus (s : BookingStatus) : Bool :=
  s = BookingStatus.pending || s = BookingStatus.confirmed

/-- The three-branch `$or` of the conflict query used by both
`POST /check-availability` (bookings.js lines 101-109) and `POST /bookings`
(lines 174-182), evaluated on one stored interval `[bci, bco)` against the
candidate `[ci, co)`:
`{checkIn ≤ ci, checkOut > ci} ∨ {checkIn < co, checkOut ≥ co} ∨
 {checkIn ≥ ci, checkOut ≤ co}`. -/
def conflictBranches (ci co bci bco : Int) : Bool :=
  (decide (bci ≤ ci) && decide (bco > ci)) ||
  (decide (bci < co) && decide (bco ≥ co)) ||
  (decide (bci ≥ ci) && decide (bco ≤ co))

/-- Half-open interval overlap, the spec's definition:
`bCheckIn < checkOut AND bCheckOut > checkIn`. -/
def overlapsHalfOpen (ci co bci bco : Int) : Bool :=
  decide (bci < co) && decide (bco > ci)

/-- Whether one stored booking matches the whole conflict query
(`listing: listingId, status ∈ {pending, confirmed}, $or [...]`). -/
def conflictsWith (lid : Nat) (ci co : Int) (b : Booking) : Bool :=
  b.listing = lid && isActiveStatus b.status &&
    conflictBranches ci co b.checkIn b.checkOut

/-- `Booking.findOne(conflict query)`: some conflicting booking exists. -/
def hasConflict (st : St) (lid : Nat) (ci co : Int) : Bool :=
  st.bookings.any (conflictsWith lid ci co)

/-- `bookingSchema.pre('save')` (Booking.js lines 90-96): reject the write
with an error when `checkOut <= checkIn`, otherwise let it through. -/
def saveBooking (b : Booking) : Except String Booking :=
  if b.checkOut ≤ b.checkIn then
    Except.error "Check-out date must be after check-in date"
  else
    Except.ok b

/-- Persisting a modified booking document: the row with the same id is
replaced. -/
def persistBooking (st : St) (b : Booking) : St :=
  { st with bookings := st.bookings.map (fun bb => if bb.id = b.id then b else bb) }

def statusToString : BookingStatus → String
  | BookingStatus.pending => "pending"
  | BookingStatus.confirmed => "confirmed"
  | BookingStatus.cancelled => "cancelled"
  | BookingStatus.completed => "completed"
  | BookingStatus.refunded => "refunded"

/-- `notifyAdmins` (notifications.js lines 12-31), success behaviour: one
notification per user with role admin (the empty-admins early return creates
none, which coincides with appending the empty batch). -/
def notifyAdmins (st : St) (message : String) (sender : Option Nat) (t : NotifType) : St :=
  let admins := st.users.filter (fun u => decide (u.role = Role.admin))
  let batch : List Notification := admins.map (fun a => ⟨a.id, sender, message, t, false⟩)
  { st with notifications := st.notifications ++ batch }

/-- `sendBookingNotification` (notifications.js lines 36-97), success
behaviour.  The helper resolves the booking's listing (refetching when not
populated); a failed lookup throws inside the try block and is caught, so it
becomes a no-op.  Recipients that are null are skipped
(`if (!notif.recipient) continue`); an unknown action creates nothing
(`if (!data) return`). -/
def sendBookingNotification (st : St) (b : Booking) (sender : Nat) (action : String) : St :=
  match findListing st b.listing with
  | none => st
  | some l =>
    let batch : List Notification :=
      if action = "booked" then
        [⟨l.host, some sender, "booked your listing \"" ++ l.title ++ "\".",
          NotifType.booking, false⟩]
      else if action = "confirmed" then
        match b.guest with
        | some g =>
          [⟨g, some sender, "Your booking for \"" ++ l.title ++ "\" has been confirmed.",
            NotifType.confirmation, false⟩]
        | none => []
      else if action = "cancelled" then
        (match b.guest with
         | some g =>
           [⟨g, some sender, "Your booking for \"" ++ l.title ++ "\" has been cancelled.",
             NotifType.cancellation, false⟩]
         | none => []) ++
        [⟨l.host, some sender,
          "The booking for your listing \"" ++ l.title ++ "\" has been cancelled successfully.",
          NotifType.cancellation, false⟩]
      else []
    { st with notifications := st.notifications ++ batch }

/-- `GET /bookings/:id` (bookings.js lines 41-64).  404 when the booking is
missing; 500 when its listing reference is broken (`booking.listing.host`
throws on a null populate); 403 when the caller is neither the booking's
guest nor the listing's host and the booking has a guest. -/
def getBookingRoute (st : St) (req : Requester) (bid : Nat) : Resp :=
  match findBooking st bid with
  | none => ⟨404, false, "Booking not found"⟩
  | some b =>
    match findListing st b.listing with
    | none => ⟨500, false, "Server error while fetching booking"⟩
    | some l =>
      if b.guest.any (fun g => decide (g ≠ req.userId)) && decide (l.host ≠ req.userId) then
        ⟨403, false, "Not authorized to view this booking"⟩
      else
        ⟨200, true, ""⟩

/-- `POST /bookings/check-availability` (bookings.js lines 70-121).  Returns
the response and the `available` field of the JSON body (absent on the
validation / not-found branches). -/
def checkAvailabilityRoute (st : St) (lid : Nat) (ci co : Int) : Resp × Option Bool :=
  if co ≤ ci then
    (⟨400, false, "Check-out date must be after check-in date"⟩, none)
  else
    match findListing st lid with
    | none => (⟨404, false, "Listing not found or inactive"⟩, none)
    | some l =>
      if l.status ≠ "active" then
        (⟨404, false, "Listing not found or inactive"⟩, none)
      else if hasConflict st lid ci co then
        (⟨200, false, "Dates not available"⟩, some false)
      else
        (⟨200, true, "Listing is available"⟩, some true)

/-- Request body of `POST /bookings`. -/
structure CreateBody where
  listingId : Nat
  guestName : String
  guestEmail : String
  guestPhone : Option String
  checkIn : Int
  checkOut : Int
  guests : Nat
  totalPrice : Int
  specialRequests : Option String
deriving DecidableEq, Repr

/-- Fresh document id for an inserted booking. -/
def freshBookingId (st : St) : Nat :=
  (st.bookings.map Booking.id).foldr max 0 + 1

/-- `POST /bookings` (bookings.js lines 127-236): validation, user and
listing lookup, date ordering, the conflict query, insertion with
`status = pending`, then the two best-effort notification calls.
`hostNotifFail` / `adminNotifFail` model a store failure inside
`sendBookingNotification` / `notifyAdmins`: both helpers catch internally,
so a failure leaves their writes out but never escapes. -/
def createBookingRoute (st : St) (req : Requester) (body : CreateBody)
    (hostNotifFail adminNotifFail : Bool) : Resp × St :=
  if body.guests < 1 then
    (⟨400, false, "Number of guests must be at least 1"⟩, st)
  else
    match findUser st req.userId with
    | none => (⟨401, false, "User not found"⟩, st)
    | some user =>
      match findListing st body.listingId with
      | none => (⟨404, false, "Listing not found or inactive"⟩, st)
      | some l =>
        if l.status ≠ "active" then
          (⟨404, false, "Listing not found or inactive"⟩, st)
        else if body.checkOut ≤ body.checkIn then
          (⟨400, false, "Check-out date must be after check-in date"⟩, st)
        else if hasConflict st body.listingId body.checkIn body.checkOut then
          (⟨400, false, "Property is not available for the selected dates"⟩, st)
        else
          let booking : Booking :=
            { id := freshBookingId st
              listing := body.listingId
              host := l.host
              guest := some user.id
              guestName := body.guestName
              guestEmail := body.guestEmail
              checkIn := body.checkIn
              checkOut := body.checkOut
              guests := body.guests
              totalPrice := body.totalPrice
              status := BookingStatus.pending
              paymentStatus := "pending" }
          match saveBooking booking with
          | Except.error _ => (⟨500, false, "Server error while creating booking"⟩, st)
          | Except.ok b =>
            let st1 : St := { st with bookings := st.bookings ++ [b] }
            let st2 : St :=
              if hostNotifFail then st1 else sendBookingNotification st1 b req.userId "booked"
            let st3 : St :=
              if adminNotifFail then st2 else
                notifyAdmins st2
                  ((if user.firstName = "" then "A user" else user.firstName) ++
                    " booked \"" ++ l.title ++ "\".")
                  (some req.userId) NotifType.booking
            (⟨201, true, "Booking created successfully"⟩, st3)

/-- `PUT /bookings/:id` (bookings.js lines 296-329): host-or-admin only (no
transition-table validation — `booking.status = req.body.status ||
booking.status`), then a best-effort notification when the status changed to
confirmed or cancelled.  `notifFail` models a failure caught inside
`sendBookingNotification`. -/
def putStatusRoute (st : St) (req : Requester) (bid : Nat)
    (reqStatus : Option BookingStatus) (notifFail : Bool) : Resp × St :=
  match findBooking st bid with
  | none => (⟨404, false, "Booking not found"⟩, st)
  | some b =>
    match findListing st b.listing with
    | none => (⟨500, false, "Server error while updating booking"⟩, st)
    | some l =>
      if req.role ≠ Role.admin ∧ l.host ≠ req.userId then
        (⟨403, false, "Not authorized"⟩, st)
      else
        let b' : Booking := { b with status := reqStatus.getD b.status }
        match saveBooking b' with
        | Except.error _ => (⟨500, false, "Server error while updating booking"⟩, st)
        | Except.ok _ =>
          let st1 : St := persistBooking st b'
          let st2 : St :=
            if b'.status ≠ b.status then
              if b'.status = BookingStatus.confirmed then
                if notifFail then st1 else sendBookingNotification st1 b' req.userId "confirmed"
              else if b'.status = BookingStatus.cancelled then
                if notifFail then st1 else sendBookingNotification st1 b' req.userId "cancelled"
              else st1
            else st1
          (⟨200, true, "Booking " ++ statusToString b'.status⟩, st2)

/-- `DELETE /bookings/:id` (bookings.js lines 335-363): the silent cancel —
guest, host or admin; sets the status to cancelled when it is not already,
and creates no notifications. -/
def deleteBookingRoute (st : St) (req : Requester) (bid : Nat) : Resp × St :=
  match findBooking st bid with
  | none => (⟨404, false, "Booking not found"⟩, st)
  | some b =>
    match findListing st b.listing with
    | none => (⟨500, false, "Server error while cancelling booking"⟩, st)
    | some l =>
      let isHost := decide (l.host = req.userId)
      let isGuest := b.guest.any (fun g => decide (g = req.userId))
      let isAdmin := decide (req.role = Role.admin)
      if !isHost && !isGuest && !isAdmin then
        (⟨403, false, "Not authorized"⟩, st)
      else if b.status ≠ BookingStatus.cancelled then
        match saveBooking { b with status := BookingStatus.cancelled } with
        | Except.error _ => (⟨500, false, "Server error while cancelling booking"⟩, st)
        | Except.ok b' =>
          (⟨200, true, "Booking cancelled successfully"⟩, persistBooking st b')
      else
        (⟨200, true, "Booking cancelled successfully"⟩, st)

/-- `DELETE /bookings/:id/delete` (bookings.js lines 370-414): admin-only
two-step delete — a non-cancelled booking is cancelled and kept; a cancelled
booking is hard-deleted. -/
def adminDeleteRoute (st : St) (req : Requester) (bid : Nat) : Resp × St :=
  match findUser st req.userId with
  | none => (⟨403, false, "Access denied: Admins only"⟩, st)
  | some u =>
    if u.role ≠ Role.admin then
      (⟨403, false, "Access denied: Admins only"⟩, st)
    else
      match findBooking st bid with
      | none => (⟨404, false, "Booking not found"⟩, st)
      | some b =>
        if b.status = BookingStatus.cancelled then
          (⟨200, true, "Cancelled booking permanently deleted from system"⟩,
           { st with bookings := st.bookings.filter (fun bb => decide (bb.id ≠ bid)) })
        else
          match saveBooking { b with status := BookingStatus.cancelled } with
          | Except.error _ => (⟨500, false, "Server error while deleting booking"⟩, st)
          | Except.ok b' =>
            (⟨200, true, "Booking cancelled first — delete again to remove permanently"⟩,
             persistBooking st b')

/-- `PUT /bookings/:id/cancel` (bookings.js lines 421-521): guest, host or
admin; marks the booking cancelled unconditionally, then fans notifications
out according to who cancelled.  Template strings interpolating
`listing.title` throw on a null listing; the outer catch turns that into a
500 after the save already happened. -/
def cancelRoute (st : St) (req : Requester) (bid : Nat) : Resp × St :=
  match findBooking st bid with
  | none => (⟨404, false, "Booking not found"⟩, st)
  | some b =>
    let listing := findListing st b.listing
    let isAdmin := decide (req.role = Role.admin)
    let isHost := listing.any (fun l => decide (l.host = req.userId))
    let isGuest := b.guest.any (fun g => decide (g = req.userId))
    if !isAdmin && !isHost && !isGuest then
      (⟨403, false, "Not authorized to cancel this booking"⟩, st)
    else
      match saveBooking { b with status := BookingStatus.cancelled } with
      | Except.error _ => (⟨500, false, "Server error while cancelling booking"⟩, st)
      | Except.ok b' =>
        let st1 : St := persistBooking st b'
        let okResp : Resp := ⟨200, true, "Booking cancelled and relevant parties notified."⟩
        if isAdmin then
          match b.guest, listing with
          | some g, some l =>
            (okResp, { st1 with notifications := st1.notifications ++
                [⟨g, some req.userId,
                  "Your booking for \"" ++ l.title ++ "\" has been cancelled by an admin.",
                  NotifType.cancellation, false⟩,
                 ⟨l.host, some req.userId,
                  "An admin cancelled a booking for your listing \"" ++ l.title ++ "\".",
                  NotifType.cancellation, false⟩] })
          | some _, none =>
            (⟨500, false, "Server error while cancelling booking"⟩, st1)
          | none, some l =>
            (okResp, { st1 with notifications := st1.notifications ++
                [⟨l.host, some req.userId,
                  "An admin cancelled a booking for your listing \"" ++ l.title ++ "\".",
                  NotifType.cancellation, false⟩] })
          | none, none => (okResp, st1)
        else if isHost then
          match listing with
          | some l =>
            let st2 : St :=
              match b.guest with
              | some g =>
                { st1 with notifications := st1.notifications ++
                    [⟨g, some req.userId,
                      "Your booking for \"" ++ l.title ++ "\" has been cancelled by the host.",
                      NotifType.cancellation, false⟩] }
              | none => st1
            (okResp,
             notifyAdmins st2 ("Host cancelled a booking for \"" ++ l.title ++ "\".")
               (some req.userId) NotifType.cancellation)
          | none => (⟨500, false, "Server error while cancelling booking"⟩, st1)
        else if isGuest then
          match listing with
          | some l =>
            let st2 : St :=
              { st1 with notifications := st1.notifications ++
                  [⟨l.host, some req.userId,
                    "Booking for \"" ++ l.title ++ "\" was cancelled by the guest.",
                    NotifType.cancellation, false⟩] }
            (okResp,
             notifyAdmins st2 ("A guest cancelled their booking for \"" ++ l.title ++ "\".")
               (some req.userId) NotifType.cancellation)
          | none => (⟨500, false, "Server error while cancelling booking"⟩, st1)
        else
          (okResp, st1)

/-- `listingSchema.pre('save')` primary-image hook (Listing.js lines
129-137): when images exist and none is primary, the first is made
primary. -/
def ensurePrimaryImages (imgs : List Image) : List Image :=
  if imgs.length > 0 then
    if imgs.any (fun i => i.isPrimary) then imgs
    else
      match imgs with
      | [] => []
      | i :: rest => { i with isPrimary := true } :: rest
  else imgs

/-- The listing save path: the pre-save hooks run on the document before it
is stored (the location-recomputation hook touches only fields not modelled
here). -/
def saveListing (l : Listing) : Listing :=
  { l with images := ensurePrimaryImages l.images }

/-! ## Sample store used by counterexamples and witnesses -/

def hostU : User := ⟨10, Role.host, "Hank"⟩

def guestU : User := ⟨20, Role.user, "Gina"⟩

def adminU : User := ⟨30, Role.admin, "Ada"⟩

def sampleListing : Listing := ⟨1, 10, "Seaside Flat", "active", 4, []⟩

def sampleBooking : Booking :=
  ⟨100, 1, 10, some 20, "Gina", "gina@example.com", 1, 5, 2, 400,
   BookingStatus.pending, "pending"⟩

def sampleSt : St := ⟨[hostU, guestU, adminU], [sampleListing], [sampleBooking], []⟩

def cancelledSt : St :=
  ⟨[hostU, guestU, adminU], [sampleListing],
   [{ sampleBooking with status := BookingStatus.cancelled }], []⟩

/-! ## Helper lemmas -/

theorem saveBooking_ok {b b' : Booking} (h : saveBooking b = Except.ok b') :
    b' = b ∧ b.checkIn < b.checkOut := by
  unfold saveBooking at h
  split at h
  · cases h
  · next hlt => cases h; exact ⟨rfl, by omega⟩

theorem mem_persistBooking {st : St} {bn b' : Booking}
    (h : b' ∈ (persistBooking st bn).bookings) : b' ∈ st.bookings ∨ b' = bn := by
  simp only [persistBooking, List.mem_map] at h
  obtain ⟨a, ha, heq⟩ := h
  by_cases hid : a.id = bn.id
  · rw [if_pos hid] at heq
    exact Or.inr heq.symm
  · rw [if_neg hid] at heq
    exact Or.inl (heq ▸ ha)

theorem notifyAdmins_bookings (st : St) (m : String) (s : Option Nat) (t : NotifType) :
    (notifyAdmins st m s t).bookings = st.bookings := rfl

theorem sendBookingNotification_bookings (st : St) (b : Booking) (s : Nat) (a : String) :
    (sendBookingNotification st b s a).bookings = st.bookings := by
  unfold sendBookingNotification
  split <;> rfl

/-- The state a cancel can leave behind: untouched, or with the found
booking's row replaced by its cancelled copy. -/
theorem cancelRoute_bookings_shape (st : St) (req : Requester) (bid : Nat) :
    (cancelRoute st req bid).2.bookings = st.bookings ∨
    ∃ b : Booking, (cancelRoute st req bid).2.bookings =
      (persistBooking st { b with status := BookingStatus.cancelled }).bookings := by
  simp only [cancelRoute]
  split
  · exact Or.inl rfl
  next b hfb =>
    split
    · exact Or.inl rfl
    · split
      · exact Or.inl rfl
      next bmod hsave =>
        obtain ⟨hbm, _⟩ := saveBooking_ok hsave
        subst hbm
        refine Or.inr ⟨b, ?_⟩
        repeat' split
        all_goals rfl

theorem deleteBookingRoute_bookings_shape (st : St) (req : Requester) (bid : Nat) :
    (deleteBookingRoute st req bid).2.bookings = st.bookings ∨
    ∃ b : Booking, (deleteBookingRoute st req bid).2.bookings =
      (persistBooking st { b with status := BookingStatus.cancelled }).bookings := by
  simp only [deleteBookingRoute]
  split
  · exact Or.inl rfl
  next b hfb =>
    split
    · exact Or.inl rfl
    next l hfl =>
      split
      · exact Or.inl rfl
      · split
        · split
          · exact Or.inl rfl
          next bmod hsave =>
            obtain ⟨hbm, _⟩ := saveBooking_ok hsave
            subst hbm
            exact Or.inr ⟨b, rfl⟩
        · exact Or.inl rfl

theorem adminDeleteRoute_bookings_shape (st : St) (req : Requester) (bid : Nat) :
    (adminDeleteRoute st req bid).2.bookings = st.bookings ∨
    (∃ b : Booking, (adminDeleteRoute st req bid).2.bookings =
      (persistBooking st { b with status := BookingStatus.cancelled }).bookings) ∨
    (adminDeleteRoute st req bid).2.bookings =
      st.bookings.filter (fun bb => decide (bb.id ≠ bid)) := by
  simp only [adminDeleteRoute]
  split
  · exact Or.inl rfl
  next u hfu =>
    split
    · exact Or.inl rfl
    · split
      · exact Or.inl rfl
      next b hfb =>
        split
        · exact Or.inr (Or.inr rfl)
        · split
          · exact Or.inl rfl
          next bmod hsave =>
            obtain ⟨hbm, _⟩ := saveBooking_ok hsave
            subst hbm
            exact Or.inr (Or.inl ⟨b, rfl⟩)

/-! ## Claims -/

/-- C1: for every candidate interval with `checkIn < checkOut` and every
stored interval with `bCheckIn < bCheckOut`, the three-branch conflict
disjunction used by `POST /bookings/check-availability` and by
`POST /bookings` holds exactly when the half-open intervals overlap
(`bCheckIn < checkOut ∧ bCheckOut > checkIn`); consequently, when every
active booking of the listing merely touches the candidate at a boundary
(`bCheckOut = checkIn` or `bCheckIn = checkOut`), no conflict is reported
and the endpoint answers `available: true`. -/
theorem conflict_query_matches_halfopen_overlap (ci co bci bco : Int)
    (hcand : ci < co) (hbook : bci < bco) :
    (conflictBranches ci co bci bco = true ↔ bci < co ∧ bco > ci) ∧
    (∀ (st : St) (lid : Nat) (l : Listing),
      findListing st lid = some l → l.status = "active" →
      (∀ b ∈ st.bookings, b.listing = lid → isActiveStatus b.status = true →
        b.checkIn < b.checkOut ∧ (b.checkOut = ci ∨ b.checkIn = co)) →
      (checkAvailabilityRoute st lid ci co).2 = some true) := by
  constructor
  · simp only [conflictBranches, Bool.or_eq_true, Bool.and_eq_true, decide_eq_true_eq]
    omega
  · intro st lid l hfind hactive hb
    have hconf : hasConflict st lid ci co = false := by
      rw [hasConflict, List.any_eq_false]
      intro b hbmem
      simp only [conflictsWith, Bool.and_eq_true, decide_eq_true_eq]
      intro hcon
      obtain ⟨⟨hlid, hact⟩, hbr⟩ := hcon
      obtain ⟨hdates, hbound⟩ := hb b hbmem hlid hact
      simp only [conflictBranches, Bool.or_eq_true, Bool.and_eq_true,
        decide_eq_true_eq] at hbr
      omega
    simp only [checkAvailabilityRoute, hfind, hconf, hactive]
    rw [if_neg (by omega)]
    simp

/-- Witness for C1 at scenario 2 of the spec: an existing pending booking
over `[1, 5)` does not conflict with the candidate `[5, 8)`, and the
check-availability endpoint answers `available: true`. -/
theorem conflict_query_matches_halfopen_overlap_witness :
    (conflictBranches 5 8 1 5 = true ↔ (1 : Int) < 8 ∧ (5 : Int) > 5) ∧
    (checkAvailabilityRoute sampleSt 1 5 8).2 = some true := by
  have h := conflict_query_matches_halfopen_overlap 5 8 1 5 (by decide) (by decide)
  refine ⟨h.1, h.2 sampleSt 1 sampleListing (by decide) (by decide) ?_⟩
  intro b hbmem hlid hact
  simp only [sampleSt, sampleBooking, List.mem_singleton] at hbmem
  subst hbmem
  exact ⟨by decide, Or.inl (by decide)⟩

/-- Counterexample to C2: `PUT /bookings/:id` applies any requested status
with no transition validation, so an admin can move a cancelled booking
back to pending — the terminal set is exited toward `pending`. -/
theorem put_status_reopens_cancelled_booking :
    cancelledSt.bookings.map Booking.status = [BookingStatus.cancelled] ∧
    (putStatusRoute cancelledSt ⟨30, Role.admin⟩ 100
        (some BookingStatus.pending) false).1.success = true ∧
    (putStatusRoute cancelledSt ⟨30, Role.admin⟩ 100
        (some BookingStatus.pending) false).2.bookings.map Booking.status =
      [BookingStatus.pending] := by
  refine ⟨rfl, rfl, rfl⟩

/-- C2 amended: with `PUT /bookings/:id` excepted (it applies any requested
valid status without checking the transition table), no lifecycle operation
exits `{cancelled, completed, refunded}` toward `{pending, confirmed}`: after
`PUT /bookings/:id/cancel`, `DELETE /bookings/:id` or
`DELETE /bookings/:id/delete`, every stored booking that is pending or
confirmed is a row that was already stored unchanged before the call. -/
theorem terminal_statuses_never_reopened_outside_put (st : St) (req : Requester) (bid : Nat) :
    (∀ b' ∈ (cancelRoute st req bid).2.bookings,
      b'.status = BookingStatus.pending ∨ b'.status = BookingStatus.confirmed →
      b' ∈ st.bookings) ∧
    (∀ b' ∈ (deleteBookingRoute st req bid).2.bookings,
      b'.status = BookingStatus.pending ∨ b'.status = BookingStatus.confirmed →
      b' ∈ st.bookings) ∧
    (∀ b' ∈ (adminDeleteRoute st req bid).2.bookings,
      b'.status = BookingStatus.pending ∨ b'.status = BookingStatus.confirmed →
      b' ∈ st.bookings) := by
  refine ⟨?_, ?_, ?_⟩
  · intro b' hmem hstat
    rcases cancelRoute_bookings_shape st req bid with hsh | ⟨b, hsh⟩ <;> rw [hsh] at hmem
    · exact hmem
    · rcases mem_persistBooking hmem with h | h
      · exact h
      · rcases hstat with h2 | h2 <;> rw [h] at h2 <;> cases h2
  · intro b' hmem hstat
    rcases deleteBookingRoute_bookings_shape st req bid with hsh | ⟨b, hsh⟩ <;>
      rw [hsh] at hmem
    · exact hmem
    · rcases mem_persistBooking hmem with h | h
      · exact h
      · rcases hstat with h2 | h2 <;> rw [h] at h2 <;> cases h2
  · intro b' hmem hstat
    rcases adminDeleteRoute_bookings_shape st req bid with hsh | ⟨b, hsh⟩ | hsh <;>
      rw [hsh] at hmem
    · exact hmem
    · rcases mem_persistBooking hmem with h | h
      · exact h
      · rcases hstat with h2 | h2 <;> rw [h] at h2 <;> cases h2
    · exact (List.mem_filter.mp hmem).1

/-- Witness for the amended C2: after an unauthorized cancel attempt the
pending sample booking is still stored, and the theorem instantiated at it
concludes it was stored before the call. -/
theorem terminal_statuses_never_reopened_outside_put_witness :
    sampleBooking ∈ sampleSt.bookings :=
  (terminal_statuses_never_reopened_outside_put sampleSt ⟨99, Role.user⟩ 100).1
    sampleBooking (by decide) (Or.inl rfl)

/-- Counterexample to C3: cancelling the sample booking a second time leaves
the status cancelled but re-runs the notification fan-out, so the stored set
of notifications is not the same before and after the second call. -/
theorem repeat_cancel_duplicates_notifications :
    (cancelRoute sampleSt ⟨20, Role.user⟩ 100).2.bookings.map Booking.status =
      [BookingStatus.cancelled] ∧
    (cancelRoute (cancelRoute sampleSt ⟨20, Role.user⟩ 100).2 ⟨20, Role.user⟩ 100).2.notifications ≠
      (cancelRoute sampleSt ⟨20, Role.user⟩ 100).2.notifications := by
  exact ⟨rfl, by decide⟩

/-- C3 amended: cancelling an already-cancelled booking by an authorized
caller leaves every stored booking unchanged (the status stays cancelled),
but the notification fan-out runs again: strictly more notifications are
stored after the call, duplicating the earlier fan-out. -/
theorem cancel_is_idempotent_on_status_but_duplicates_notifications
    (st : St) (req : Requester) (bid : Nat) (b : Booking) (l : Listing)
    (hb : findBooking st bid = some b)
    (hst : b.status = BookingStatus.cancelled)
    (hl : findListing st b.listing = some l)
    (hdates : b.checkIn < b.checkOut)
    (hid : ∀ bb ∈ st.bookings, bb.id = b.id → bb = b)
    (hauth : req.role = Role.admin ∨ l.host = req.userId ∨ b.guest = some req.userId)
    (hadm : ∃ u ∈ st.users, u.role = Role.admin) :
    (cancelRoute st req bid).2.bookings = st.bookings ∧
    st.notifications.length < (cancelRoute st req bid).2.notifications.length := by
  have hbmod : ({ b with status := BookingStatus.cancelled } : Booking) = b := by
    rw [← hst]
  have hmap : st.bookings.map (fun bb => if bb.id = b.id then b else bb) = st.bookings := by
    rw [List.map_congr_left (g := id), List.map_id]
    intro bb hbb
    by_cases h : bb.id = b.id
    · rw [if_pos h, hid bb hbb h]; rfl
    · rw [if_neg h]; rfl
  have hpersist : persistBooking st b = st := by
    rw [persistBooking, hmap]
  have hsave : saveBooking b = Except.ok b := by
    rw [saveBooking, if_neg (not_le.mpr hdates)]
  have hadmpos : 0 < (st.users.filter (fun u => decide (u.role = Role.admin))).length := by
    obtain ⟨u, hu, hr⟩ := hadm
    exact List.length_pos_of_mem (List.mem_filter.mpr ⟨hu, by rw [hr]; exact rfl⟩)
  simp only [cancelRoute, hb, hl, Option.any_some, hbmod, hsave, hpersist]
  rcases Decidable.em (req.role = Role.admin) with hA | hA
  · cases hg : b.guest <;>
      simp [hA, hg, List.length_append]
  · rcases Decidable.em (l.host = req.userId) with hH | hH
    · cases hg : b.guest <;>
        (simp [hA, hH, hg, notifyAdmins, List.length_append]; try omega)
    · have hg : b.guest = some req.userId := by
        rcases hauth with h | h | h
        · exact absurd h hA
        · exact absurd h hH
        · exact h
      simp [hA, hH, hg, notifyAdmins, List.length_append]

/-- Witness for the amended C3 at the sample store with the already-cancelled
booking and the cancelling guest as caller. -/
theorem cancel_is_idempotent_on_status_but_duplicates_notifications_witness :
    (cancelRoute cancelledSt ⟨20, Role.user⟩ 100).2.bookings = cancelledSt.bookings ∧
    cancelledSt.notifications.length <
      (cancelRoute cancelledSt ⟨20, Role.user⟩ 100).2.notifications.length := by
  exact cancel_is_idempotent_on_status_but_duplicates_notifications cancelledSt
    ⟨20, Role.user⟩ 100 { sampleBooking with status := BookingStatus.cancelled }
    sampleListing (by decide) rfl (by decide) (by decide)
    (by intro bb hbb h; simpa [cancelledSt] using hbb)
    (Or.inr (Or.inr rfl)) ⟨adminU, by decide, rfl⟩

/-- C4: `DELETE /bookings/:id/delete` run by an admin on a non-cancelled
booking keeps the row (same row count), marks every row with that id
cancelled and leaves other rows in place, answering "delete again"; run on a
cancelled booking it hard-deletes the row; run by a non-admin it answers 403
and changes nothing. -/
theorem admin_two_step_delete (st : St) (req : Requester) (bid : Nat) (b : Booking)
    (hb : findBooking st bid = some b) (hdates : b.checkIn < b.checkOut) :
    ∀ u, findUser st req.userId = some u →
      (u.role = Role.admin →
        (b.status ≠ BookingStatus.cancelled →
          (adminDeleteRoute st req bid).1 =
            ⟨200, true, "Booking cancelled first — delete again to remove permanently"⟩ ∧
          (adminDeleteRoute st req bid).2.bookings.length = st.bookings.length ∧
          (∀ b' ∈ (adminDeleteRoute st req bid).2.bookings,
            b'.id = bid → b'.status = BookingStatus.cancelled) ∧
          (∀ b' ∈ st.bookings, b'.id ≠ bid → b' ∈ (adminDeleteRoute st req bid).2.bookings)) ∧
        (b.status = BookingStatus.cancelled →
          (adminDeleteRoute st req bid).1 =
            ⟨200, true, "Cancelled booking permanently deleted from system"⟩ ∧
          (∀ b' ∈ (adminDeleteRoute st req bid).2.bookings, b'.id ≠ bid) ∧
          (∀ b' ∈ st.bookings, b'.id ≠ bid → b' ∈ (adminDeleteRoute st req bid).2.bookings))) ∧
      (u.role ≠ Role.admin →
        (adminDeleteRoute st req bid).1.status = 403 ∧
        (adminDeleteRoute st req bid).2 = st) := by
  have hb2 : st.bookings.find? (fun x => decide (x.id = bid)) = some b := hb
  have hbid : b.id = bid := by simpa using List.find?_some hb2
  intro u hu
  refine ⟨fun hrole => ⟨fun hnc => ?_, fun hc => ?_⟩, fun hrole => ?_⟩
  · have hsave : saveBooking { b with status := BookingStatus.cancelled } =
        Except.ok { b with status := BookingStatus.cancelled } := by
      rw [saveBooking, if_neg (not_le.mpr hdates)]
    simp only [adminDeleteRoute, hu, hb, hrole, hnc, hsave, persistBooking,
      ne_eq, not_true_eq_false, if_false, if_neg hnc]
    refine ⟨by trivial, List.length_map _ _, ?_, ?_⟩
    · intro b' hmem hbid'
      simp only [List.mem_map] at hmem
      obtain ⟨a, ha, heq⟩ := hmem
      by_cases h : a.id = b.id
      · rw [if_pos h] at heq
        rw [← heq]
      · rw [if_neg h] at heq
        exact absurd (heq ▸ hbid') (hbid ▸ h)
    · intro b' hmem hbid'
      refine List.mem_map.mpr ⟨b', hmem, ?_⟩
      rw [if_neg (hbid ▸ hbid')]
  · simp only [adminDeleteRoute, hu, hb, hrole, ne_eq, not_true_eq_false, if_false, if_pos hc]
    refine ⟨by trivial, ?_, ?_⟩
    · intro b' hmem
      exact of_decide_eq_true (List.mem_filter.mp hmem).2
    · intro b' hmem hbid'
      exact List.mem_filter.mpr ⟨hmem, decide_eq_true hbid'⟩
  · simp only [adminDeleteRoute, hu, if_pos hrole]
    exact ⟨by trivial, by trivial⟩

/-- Witness for C4: at the sample store, the first admin delete of the
pending booking answers "delete again", and the admin delete of the
already-cancelled booking answers permanent deletion. -/
theorem admin_two_step_delete_witness :
    (adminDeleteRoute sampleSt ⟨30, Role.admin⟩ 100).1 =
      ⟨200, true, "Booking cancelled first — delete again to remove permanently"⟩ ∧
    (adminDeleteRoute cancelledSt ⟨30, Role.admin⟩ 100).1 =
      ⟨200, true, "Cancelled booking permanently deleted from system"⟩ := by
  refine ⟨((admin_two_step_delete sampleSt ⟨30, Role.admin⟩ 100 sampleBooking
      (by decide) (by decide) adminU (by decide)).1 rfl).1 (by decide) |>.1,
    ((admin_two_step_delete cancelledSt ⟨30, Role.admin⟩ 100
      { sampleBooking with status := BookingStatus.cancelled }
      (by decide) (by decide) adminU (by decide)).1 rfl).2 rfl |>.1⟩

/-- C5: when the booking's guest (neither admin nor the listing's host)
cancels via `PUT /bookings/:id/cancel`, the booking ends cancelled and the
notifications created are exactly one to the listing's host plus one per
user with role admin, and none goes to the cancelling guest. -/
theorem guest_cancel_notifies_host_and_admins_only
    (st : St) (req : Requester) (bid : Nat) (b : Booking) (l : Listing)
    (hb : findBooking st bid = some b)
    (hl : findListing st b.listing = some l)
    (hguest : b.guest = some req.userId)
    (hnotadmin : req.role ≠ Role.admin)
    (hnothost : l.host ≠ req.userId)
    (hdates : b.checkIn < b.checkOut)
    (hdb : ∀ u ∈ st.users, u.id = req.userId → u.role ≠ Role.admin) :
    (cancelRoute st req bid).1 =
      ⟨200, true, "Booking cancelled and relevant parties notified."⟩ ∧
    (∀ b' ∈ (cancelRoute st req bid).2.bookings,
      b'.id = bid → b'.status = BookingStatus.cancelled) ∧
    (cancelRoute st req bid).2.notifications = st.notifications ++
      (⟨l.host, some req.userId,
        "Booking for \"" ++ l.title ++ "\" was cancelled by the guest.",
        NotifType.cancellation, false⟩ ::
       (st.users.filter (fun u => decide (u.role = Role.admin))).map
         (fun a => ⟨a.id, some req.userId,
           "A guest cancelled their booking for \"" ++ l.title ++ "\".",
           NotifType.cancellation, false⟩)) ∧
    (∀ n ∈ (cancelRoute st req bid).2.notifications.drop st.notifications.length,
      n.recipient ≠ req.userId) := by
  have hb2 : st.bookings.find? (fun x => decide (x.id = bid)) = some b := hb
  have hbid : b.id = bid := by simpa using List.find?_some hb2
  have hguestAny : b.guest.any (fun g => decide (g = req.userId)) = true := by
    rw [hguest]; simp
  have hsave : saveBooking { b with status := BookingStatus.cancelled } =
      Except.ok { b with status := BookingStatus.cancelled } := by
    rw [saveBooking, if_neg (not_le.mpr hdates)]
  have hnot : (cancelRoute st req bid).2.notifications = st.notifications ++
      (⟨l.host, some req.userId,
        "Booking for \"" ++ l.title ++ "\" was cancelled by the guest.",
        NotifType.cancellation, false⟩ ::
       (st.users.filter (fun u => decide (u.role = Role.admin))).map
         (fun a => ⟨a.id, some req.userId,
           "A guest cancelled their booking for \"" ++ l.title ++ "\".",
           NotifType.cancellation, false⟩)) := by
    simp [cancelRoute, hb, hl, hguestAny, hsave, hnotadmin, hnothost,
      notifyAdmins, persistBooking]
  refine ⟨?_, ?_, hnot, ?_⟩
  · simp [cancelRoute, hb, hl, hguestAny, hsave, hnotadmin, hnothost]
  · intro b' hmem hbid'
    have hbk : (cancelRoute st req bid).2.bookings =
        (persistBooking st { b with status := BookingStatus.cancelled }).bookings := by
      simp [cancelRoute, hb, hl, hguestAny, hsave, hnotadmin, hnothost, notifyAdmins]
    rw [hbk] at hmem
    simp only [persistBooking, List.mem_map] at hmem
    obtain ⟨a, ha, heq⟩ := hmem
    by_cases h : a.id = b.id
    · rw [if_pos h] at heq
      rw [← heq]
    · rw [if_neg h] at heq
      exact absurd (heq ▸ hbid') (hbid ▸ h)
  · intro n hmem
    rw [hnot, List.drop_left] at hmem
    rcases List.mem_cons.mp hmem with h | h
    · rw [h]
      exact hnothost
    · obtain ⟨a, ha, heq⟩ := List.mem_map.mp h
      have hadm : a.role = Role.admin := of_decide_eq_true (List.mem_filter.mp ha).2
      intro hrec
      exact hdb a (List.mem_filter.mp ha).1 (by rw [← heq] at hrec; exact hrec) hadm

/-- Witness for C5 at the sample store: the guest cancels; the host and the
single admin are notified, exactly. -/
theorem guest_cancel_notifies_host_and_admins_only_witness :
    (cancelRoute sampleSt ⟨20, Role.user⟩ 100).1 =
      ⟨200, true, "Booking cancelled and relevant parties notified."⟩ ∧
    (cancelRoute sampleSt ⟨20, Role.user⟩ 100).2.notifications =
      sampleSt.notifications ++
      (⟨10, some 20, "Booking for \"Seaside Flat\" was cancelled by the guest.",
        NotifType.cancellation, false⟩ ::
       (sampleSt.users.filter (fun u => decide (u.role = Role.admin))).map
         (fun a => ⟨a.id, some 20,
           "A guest cancelled their booking for \"Seaside Flat\".",
           NotifType.cancellation, false⟩)) := by
  have h := guest_cancel_notifies_host_and_admins_only sampleSt ⟨20, Role.user⟩ 100
    sampleBooking sampleListing (by decide) (by decide) rfl (by decide) (by decide)
    (by decide) (by decide)
  exact ⟨h.1, h.2.2.1⟩

/-- Counterexample to C6: at the sample store the caller 30 has role admin
and is neither the booking's guest (20) nor the listing's host (10), yet
`GET /bookings/:id` rejects with 403 — the route has no admin bypass. -/
theorem admin_gets_403_on_foreign_booking :
    (findUser sampleSt 30).map User.role = some Role.admin ∧
    getBookingRoute sampleSt ⟨30, Role.admin⟩ 100 =
      ⟨403, false, "Not authorized to view this booking"⟩ := by
  exact ⟨rfl, rfl⟩

/-- C6 amended: `GET /bookings/:id` succeeds exactly for the booking's guest
and the listing's host; any other caller — admins included — gets 403 when
the booking has a guest, and every authenticated caller succeeds when the
booking's guest is null; the only outcomes for an existing booking with an
existing listing are 200 and 403. -/
theorem get_booking_access_characterization
    (st : St) (req : Requester) (bid : Nat) (b : Booking) (l : Listing)
    (hb : findBooking st bid = some b)
    (hl : findListing st b.listing = some l) :
    ((getBookingRoute st req bid).status = 200 ↔
      (b.guest = some req.userId ∨ b.guest = none ∨ l.host = req.userId)) ∧
    ((getBookingRoute st req bid).status = 200 ∨
      (getBookingRoute st req bid).status = 403) := by
  simp only [getBookingRoute, hb, hl]
  cases hg : b.guest with
  | none => simp
  | some g =>
    by_cases h1 : g = req.userId
    · subst h1
      simp
    · by_cases h2 : l.host = req.userId
      · simp [h1, h2]
      · simp [h1, h2]

/-- Witness for the amended C6: the booking's guest gets 200 at the sample
store. -/
theorem get_booking_access_characterization_witness :
    (getBookingRoute sampleSt ⟨20, Role.user⟩ 100).status = 200 :=
  ((get_booking_access_characterization sampleSt ⟨20, Role.user⟩ 100 sampleBooking
    sampleListing (by decide) (by decide)).1).mpr (Or.inl rfl)

/-- C7: notification fan-out is best-effort — for `POST /bookings` and for
`PUT /bookings/:id`, a store failure caught inside `sendBookingNotification`
or `notifyAdmins` (any combination of the failure flags) changes neither the
response reported to the caller nor the stored bookings: the lifecycle
outcome is independent of the notification outcome. -/
theorem notification_failure_never_affects_lifecycle_outcome
    (st : St) (req : Requester) (body : CreateBody) (bid : Nat)
    (rs : Option BookingStatus) (f1 f2 nf : Bool) :
    ((createBookingRoute st req body f1 f2).1 =
       (createBookingRoute st req body false false).1 ∧
     (createBookingRoute st req body f1 f2).2.bookings =
       (createBookingRoute st req body false false).2.bookings) ∧
    ((putStatusRoute st req bid rs nf).1 = (putStatusRoute st req bid rs false).1 ∧
     (putStatusRoute st req bid rs nf).2.bookings =
       (putStatusRoute st req bid rs false).2.bookings) := by
  refine ⟨⟨?_, ?_⟩, ?_, ?_⟩
  · simp only [createBookingRoute]
    repeat' split
    all_goals rfl
  · simp only [createBookingRoute]
    repeat' split
    all_goals try rfl
    all_goals cases f1 <;> cases f2 <;>
      simp [sendBookingNotification_bookings, notifyAdmins_bookings]
  · simp only [putStatusRoute]
    repeat' split
    all_goals rfl
  · simp only [putStatusRoute]
    repeat' split
    all_goals try rfl
    all_goals cases nf <;>
      simp [sendBookingNotification_bookings, notifyAdmins_bookings]

/-- The bookings `POST /bookings` can leave behind: untouched, or with one
new row appended whose dates satisfy the write-time invariant. -/
theorem createBookingRoute_bookings_shape (st : St) (req : Requester) (body : CreateBody)
    (f1 f2 : Bool) :
    (createBookingRoute st req body f1 f2).2.bookings = st.bookings ∨
    ∃ bn : Booking, bn.checkIn < bn.checkOut ∧
      (createBookingRoute st req body f1 f2).2.bookings = st.bookings ++ [bn] := by
  simp only [createBookingRoute]
  split
  · exact Or.inl rfl
  · split
    · exact Or.inl rfl
    · split
      · exact Or.inl rfl
      · split
        · exact Or.inl rfl
        · split
          · exact Or.inl rfl
          · split
            · exact Or.inl rfl
            · split
              · exact Or.inl rfl
              next bn hsave =>
                obtain ⟨hbn, hd⟩ := saveBooking_ok hsave
                refine Or.inr ⟨bn, by rw [hbn]; exact hd, ?_⟩
                cases f1 <;> cases f2 <;>
                  simp [sendBookingNotification_bookings, notifyAdmins_bookings]

/-- C8: the booking model's pre-save hook rejects any document with
`checkOut ≤ checkIn` with an error (so no row is written), a successful save
returns the document unchanged with `checkIn < checkOut`, and consequently
`POST /bookings` preserves the stored invariant: if every stored booking
satisfies `checkIn < checkOut`, every booking stored after the call does
too. -/
theorem booking_date_invariant_enforced_at_write :
    (∀ b : Booking, b.checkOut ≤ b.checkIn →
      saveBooking b = Except.error "Check-out date must be after check-in date") ∧
    (∀ b b' : Booking, saveBooking b = Except.ok b' → b' = b ∧ b'.checkIn < b'.checkOut) ∧
    (∀ (st : St) (req : Requester) (body : CreateBody) (f1 f2 : Bool),
      (∀ b ∈ st.bookings, b.checkIn < b.checkOut) →
      ∀ b' ∈ (createBookingRoute st req body f1 f2).2.bookings,
        b'.checkIn < b'.checkOut) := by
  refine ⟨?_, ?_, ?_⟩
  · intro b h
    rw [saveBooking, if_pos h]
  · intro b b' h
    obtain ⟨he, hd⟩ := saveBooking_ok h
    subst he
    exact ⟨rfl, hd⟩
  · intro st req body f1 f2 hinv b' hmem
    rcases createBookingRoute_bookings_shape st req body f1 f2 with hsh | ⟨bn, hd, hsh⟩ <;>
      rw [hsh] at hmem
    · exact hinv b' hmem
    · rcases List.mem_append.mp hmem with h | h
      · exact hinv b' h
      · rw [List.mem_singleton.mp h]
        exact hd

/-- Request body used by concrete witnesses. -/
def sampleBody : CreateBody := ⟨1, "Bob", "bob@example.com", none, 10, 12, 2, 200, none⟩

/-- Witness for C8: a reversed-date document is rejected, and the sample
booking round-trips through a successful save with ordered dates. -/
theorem booking_date_invariant_enforced_at_write_witness :
    saveBooking { sampleBooking with checkOut := 0 } =
      Except.error "Check-out date must be after check-in date" ∧
    sampleBooking.checkIn < sampleBooking.checkOut := by
  exact ⟨booking_date_invariant_enforced_at_write.1 _ (by decide),
    (booking_date_invariant_enforced_at_write.2.1 sampleBooking sampleBooking (by rfl)).2⟩

/-- Counterexample to C9: a listing saved with two images both marked
primary keeps both — the save path does not reduce the primary count to
exactly one. -/
theorem save_keeps_two_primary_images :
    (saveListing { sampleListing with
        images := [⟨"a", true⟩, ⟨"b", true⟩] }).images ≠ [] ∧
    (saveListing { sampleListing with
        images := [⟨"a", true⟩, ⟨"b", true⟩] }).images.countP
      (fun i => i.isPrimary) = 2 := by
  exact ⟨by decide, rfl⟩

/-- Count of primary images after the pre-save hook, at the images-list
level. -/
theorem ensurePrimary_count (imgs : List Image) (h : imgs ≠ []) :
    1 ≤ (ensurePrimaryImages imgs).countP (fun i => i.isPrimary) ∧
    (imgs.countP (fun i => i.isPrimary) ≤ 1 →
      (ensurePrimaryImages imgs).countP (fun i => i.isPrimary) = 1) := by
  unfold ensurePrimaryImages
  rw [if_pos (List.length_pos.mpr h)]
  by_cases hany : imgs.any (fun i => i.isPrimary)
  · rw [if_pos hany]
    obtain ⟨a, ha, hpa⟩ := List.any_eq_true.mp hany
    have hpos : 0 < imgs.countP (fun i => i.isPrimary) :=
      List.countP_pos_iff.mpr ⟨a, ha, hpa⟩
    exact ⟨hpos, fun hle => le_antisymm hle hpos⟩
  · rw [if_neg hany]
    match imgs, h with
    | i :: rest, _ =>
      have hrest : rest.countP (fun x => x.isPrimary) = 0 := by
        rw [List.countP_eq_zero]
        intro x hx
        have hall := List.any_eq_false.mp (Bool.of_not_eq_true hany)
        exact by simpa using hall x (List.mem_cons_of_mem i hx)
      have hone : ({ i with isPrimary := true } :: rest).countP (fun x => x.isPrimary) = 1 := by
        simp [List.countP_cons, hrest]
      exact ⟨by rw [hone], fun _ => hone⟩

/-- C9 amended: after the listing save path, a listing with images always
has at least one primary image (if none was primary the first is made
primary), and when at most one was primary beforehand, exactly one is
primary afterwards; the hook never reduces several primaries to one. -/
theorem save_listing_primary_image_guarantee (l : Listing) (h : l.images ≠ []) :
    1 ≤ (saveListing l).images.countP (fun i => i.isPrimary) ∧
    (l.images.countP (fun i => i.isPrimary) ≤ 1 →
      (saveListing l).images.countP (fun i => i.isPrimary) = 1) := by
  simpa [saveListing] using ensurePrimary_count l.images h

/-- Witness for the amended C9: a single non-primary image becomes the one
primary image. -/
theorem save_listing_primary_image_guarantee_witness :
    (saveListing { sampleListing with
        images := [⟨"front", false⟩] }).images.countP (fun i => i.isPrimary) = 1 :=
  (save_listing_primary_image_guarantee
    { sampleListing with images := [⟨"front", false⟩] } (by decide)).2 (by decide)

/-- C10: `DELETE /bookings/:id` invoked by the booking's guest, the
listing's host or an admin answers success, sets the booking's status to
cancelled leaving all its other fields unchanged and all other rows
untouched, and creates no notifications (users, listings and notifications
are exactly those of the pre-state). -/
theorem delete_route_is_silent_cancel
    (st : St) (req : Requester) (bid : Nat) (b : Booking) (l : Listing)
    (hb : findBooking st bid = some b)
    (hl : findListing st b.listing = some l)
    (hauth : l.host = req.userId ∨ b.guest = some req.userId ∨ req.role = Role.admin)
    (hdates : b.checkIn < b.checkOut)
    (hid : ∀ bb ∈ st.bookings, bb.id = bid → bb = b) :
    (deleteBookingRoute st req bid).1 = ⟨200, true, "Booking cancelled successfully"⟩ ∧
    (deleteBookingRoute st req bid).2.users = st.users ∧
    (deleteBookingRoute st req bid).2.listings = st.listings ∧
    (deleteBookingRoute st req bid).2.notifications = st.notifications ∧
    (deleteBookingRoute st req bid).2.bookings =
      st.bookings.map (fun bb =>
        if bb.id = bid then { b with status := BookingStatus.cancelled } else bb) := by
  have hb2 : st.bookings.find? (fun x => decide (x.id = bid)) = some b := hb
  have hbid : b.id = bid := by simpa using List.find?_some hb2
  subst hbid
  by_cases hc : b.status = BookingStatus.cancelled
  · have hmod : ({ b with status := BookingStatus.cancelled } : Booking) = b := by
      rw [← hc]
    have hmap : st.bookings.map (fun bb =>
        if bb.id = b.id then { b with status := BookingStatus.cancelled } else bb) =
        st.bookings := by
      rw [List.map_congr_left (g := id), List.map_id]
      intro bb hbb
      by_cases hh : bb.id = b.id
      · rw [if_pos hh, hmod, hid bb hbb hh]
        rfl
      · rw [if_neg hh]
        rfl
    rcases hauth with h | h | h
    · simp [deleteBookingRoute, hb, hl, hc, hmap, h]
    · have hga : Option.any (fun g => decide (g = req.userId)) b.guest = true := by
        rw [h]; simp
      simp [deleteBookingRoute, hb, hl, hc, hmap, hga]
    · simp [deleteBookingRoute, hb, hl, hc, hmap, h]
  · have hsave : saveBooking { b with status := BookingStatus.cancelled } =
        Except.ok { b with status := BookingStatus.cancelled } := by
      rw [saveBooking, if_neg (not_le.mpr hdates)]
    rcases hauth with h | h | h
    · simp [deleteBookingRoute, hb, hl, hc, hsave, persistBooking, h]
    · have hga : Option.any (fun g => decide (g = req.userId)) b.guest = true := by
        rw [h]; simp
      simp [deleteBookingRoute, hb, hl, hc, hsave, persistBooking, hga]
    · simp [deleteBookingRoute, hb, hl, hc, hsave, persistBooking, h]

/-- Witness for C10 at the sample store: the guest silently cancels — 200,
and no notification row is created. -/
theorem delete_route_is_silent_cancel_witness :
    (deleteBookingRoute sampleSt ⟨20, Role.user⟩ 100).1 =
      ⟨200, true, "Booking cancelled successfully"⟩ ∧
    (deleteBookingRoute sampleSt ⟨20, Role.user⟩ 100).2.notifications =
      sampleSt.notifications := by
  have h := delete_route_is_silent_cancel sampleSt ⟨20, Role.user⟩ 100 sampleBooking
    sampleListing (by decide) (by decide) (Or.inr (Or.inl rfl)) (by decide) (by decide)
  exact ⟨h.1, h.2.2.2.1⟩

end Rentify
